import Mathlib

/-!
Shallow embedding of the ChArUco camera-calibration program (charuco.cpp).

The program is a single interactive main that commits frame observations
(marker corner quadruples plus marker ids), then runs a two-stage
calibration: Stage A flattens all per-frame marker observations and calls
an aruco solver, Stage B interpolates board corners per frame with the
Stage A intrinsics and calls a charuco solver, and finally the camera
parameters are serialized to a file.

The external collaborators (detection, interpolation, the two solvers,
the file system) are modelled as components of an environment record;
everything the orchestration code itself does (list bookkeeping, flag
tests, thresholds, serialization order) is embedded faithfully from the
source. Scalars are rationals so that equality stays decidable.
-/

/-- An image point, models cv Point2f. -/
abbrev Point := ℚ × ℚ

/-- The four detected corners of one marker, models vector of Point2f. -/
abbrev MarkerQuad := List Point

/-- Models the OpenCV flag bit CALIB_USE_INTRINSIC_GUESS (value 1). -/
def CALIB_USE_INTRINSIC_GUESS : Nat := 1

/-- Models the OpenCV flag bit CALIB_FIX_ASPECT_RATIO (value 2). -/
def CALIB_FIX_ASPECT : Nat := 2

/-- Models the OpenCV flag bit CALIB_FIX_PRINCIPAL_POINT (value 4). -/
def CALIB_FIX_PRINCIPAL_POINT : Nat := 4

/-- Models the OpenCV flag bit CALIB_ZERO_TANGENT_DIST (value 8). -/
def CALIB_ZERO_TANGENT_DIST : Nat := 8

/-- A 3x3 camera matrix with rational entries, models a 3x3 CV_64F Mat. -/
structure Mat33 where
  m00 : ℚ
  m01 : ℚ
  m02 : ℚ
  m10 : ℚ
  m11 : ℚ
  m12 : ℚ
  m20 : ℚ
  m21 : ℚ
  m22 : ℚ
deriving DecidableEq, Repr

/-- The 3x3 identity matrix, models Mat eye(3, 3, CV_64F). -/
def Mat33.eye : Mat33 := ⟨1, 0, 0, 0, 1, 0, 0, 0, 1⟩

/-- The all-zero matrix, stands for the default-constructed empty Mat. -/
def Mat33.zero : Mat33 := ⟨0, 0, 0, 0, 0, 0, 0, 0, 0⟩

/-- One committed frame observation (charuco.cpp lines 165-172): the
detected marker corner quadruples, the matching marker ids, and an
abstract handle for the raw image. -/
structure Frame where
  corners : List MarkerQuad
  ids : List Int
  img : Nat
deriving DecidableEq, Repr

/-- Stage A data preparation (charuco.cpp lines 189-199): flatten the
per-frame corner quadruples and ids into two flat sequences and record,
per frame and in frame order, the count of markers contributed. The C
loop indexes the id list at the positions of the corner list, which is
modelled by List.take of the corner-list length. Returns
(allCornersConcatenated, allIdsConcatenated, markerCounterPerFrame). -/
def prepareStageA : List Frame → List MarkerQuad × List Int × List Nat
  | [] => ([], [], [])
  | f :: fs =>
    (f.corners ++ (prepareStageA fs).1,
     f.ids.take f.corners.length ++ (prepareStageA fs).2.1,
     f.corners.length :: (prepareStageA fs).2.2)

/-- Environment of external collaborators: the aruco solver
(calibrateCameraAruco, which returns the updated camera matrix, the
distortion coefficients and a reprojection error), the charuco corner
interpolation service (interpolateCornersCharuco with known intrinsics),
the charuco solver (calibrateCameraCharuco), and whether the output
destination can be opened for writing. -/
structure Env where
  solveAruco : List MarkerQuad → List Int → List Nat → Mat33 → Nat → Mat33 × List ℚ × ℚ
  interpolateCharuco : Frame → Mat33 → List ℚ → List Point × List Int
  solveCharuco : List (List Point) → List (List Int) → Mat33 → List ℚ → Nat → Mat33 × List ℚ × ℚ
  canOpen : Bool

/-- One serialized field of the output parameter file. -/
inductive OutField where
  | calibrationTime : OutField
  | imageWidth : Int → OutField
  | imageHeight : Int → OutField
  | aspectRatioField : ℚ → OutField
  | flagsString : String → OutField
  | flagsField : Nat → OutField
  | cameraMatrixField : Mat33 → OutField
  | distCoeffsField : List ℚ → OutField
  | avgReprojErr : ℚ → OutField
deriving DecidableEq, Repr

/-- The human-readable flags string formatted by charuco.cpp lines 80-84
into a local buffer. In the source this string is built when flags is
nonzero but is never handed to the FileStorage, so it never reaches the
output file. -/
def flagsStringOf (flags : Nat) : String :=
  "flags: "
    ++ (if flags &&& CALIB_USE_INTRINSIC_GUESS ≠ 0 then "+use_intrinsic_guess" else "")
    ++ (if flags &&& CALIB_FIX_ASPECT ≠ 0 then "+fix_aspectRatio" else "")
    ++ (if flags &&& CALIB_FIX_PRINCIPAL_POINT ≠ 0 then "+fix_principal_point" else "")
    ++ (if flags &&& CALIB_ZERO_TANGENT_DIST ≠ 0 then "+zero_tangent_dist" else "")

/-- saveCameraParams (charuco.cpp lines 65-91): returns none when the
destination cannot be opened, otherwise the ordered list of serialized
fields. Note that lines 79-85 only sprintf the flags string into a local
buffer and never write it, so no flagsString field is produced. -/
def saveCameraParams (canOpen : Bool) (imageSize : Int × Int) (aspect : ℚ) (flags : Nat)
    (cameraMatrix : Mat33) (distCoeffs : List ℚ) (totalAvgErr : ℚ) : Option (List OutField) :=
  if canOpen = false then none
  else some
    ([OutField.calibrationTime, OutField.imageWidth imageSize.1, OutField.imageHeight imageSize.2]
      ++ (if flags &&& CALIB_FIX_ASPECT ≠ 0 then [OutField.aspectRatioField aspect] else [])
      ++ [OutField.flagsField flags, OutField.cameraMatrixField cameraMatrix,
          OutField.distCoeffsField distCoeffs, OutField.avgReprojErr totalAvgErr])

/-- Modelled from the spec words of the output-file claim: the writer as
the spec describes it, with the human-readable flags string serialized as
a field whenever flags is nonzero, between the aspect ratio and the
numeric flags value. Used only to compare against saveCameraParams. -/
def saveCameraParamsSpec (canOpen : Bool) (imageSize : Int × Int) (aspect : ℚ) (flags : Nat)
    (cameraMatrix : Mat33) (distCoeffs : List ℚ) (totalAvgErr : ℚ) : Option (List OutField) :=
  if canOpen = false then none
  else some
    ([OutField.calibrationTime, OutField.imageWidth imageSize.1, OutField.imageHeight imageSize.2]
      ++ (if flags &&& CALIB_FIX_ASPECT ≠ 0 then [OutField.aspectRatioField aspect] else [])
      ++ (if flags ≠ 0 then [OutField.flagsString (flagsStringOf flags)] else [])
      ++ [OutField.flagsField flags, OutField.cameraMatrixField cameraMatrix,
          OutField.distCoeffsField distCoeffs, OutField.avgReprojErr totalAvgErr])

/-- Exit condition of the pipeline run, by the diagnostic printed. -/
inductive ExitStatus where
  | noDataError : ExitStatus
  | insufficientData : ExitStatus
  | persistenceError : ExitStatus
  | success : ExitStatus
deriving DecidableEq, Repr

/-- The arguments handed to calibrateCameraAruco (charuco.cpp 202-204). -/
structure SolverAInput where
  corners : List MarkerQuad
  ids : List Int
  markerCounterPerFrame : List Nat
  cameraMatrix : Mat33
  flags : Nat
deriving DecidableEq, Repr

/-- The arguments handed to calibrateCameraCharuco (charuco.cpp 232-234). -/
structure SolverBInput where
  charucoCorners : List (List Point)
  charucoIds : List (List Int)
  cameraMatrix : Mat33
  distCoeffs : List ℚ
  flags : Nat
deriving DecidableEq, Repr

/-- Observable outcome of one pipeline run: the exit condition, the
inputs of each solver invocation (none when the solver was never
invoked), the serialized file fields (none when no file was written),
and whether the reprojection errors were printed. -/
structure RunResult where
  outcome : ExitStatus
  stageAInput : Option SolverAInput
  stageBInput : Option SolverBInput
  fileFields : Option (List OutField)
  printedErrors : Bool
deriving DecidableEq, Repr

/-- Camera matrix seeding (charuco.cpp lines 180-186): when the fix
aspect ratio flag is set the matrix becomes the identity with entry
(0,0) preset to the aspect ratio, otherwise it stays the default Mat. -/
def initialCameraMatrix (flags : Nat) (r : ℚ) : Mat33 :=
  if flags &&& CALIB_FIX_ASPECT ≠ 0 then { Mat33.eye with m00 := r } else Mat33.zero

/-- Result of the Stage A solver call (charuco.cpp lines 202-204): the
camera matrix and distortion coefficients are in-out arguments, so the
solver output overwrites them for the rest of the run. -/
def stageAOut (env : Env) (flags : Nat) (r : ℚ) (frames : List Frame) : Mat33 × List ℚ × ℚ :=
  env.solveAruco (prepareStageA frames).1 (prepareStageA frames).2.1
    (prepareStageA frames).2.2 (initialCameraMatrix flags r) flags

/-- Stage B data preparation (charuco.cpp lines 214-224): for every
committed frame, interpolate board corners with the Stage A intrinsics
and push the (possibly empty) result, one entry per frame in frame
order. Returns (allCharucoCorners, allCharucoIds). -/
def stageBPrep (env : Env) (m : Mat33) (d : List ℚ) : List Frame → List (List Point) × List (List Int)
  | [] => ([], [])
  | f :: fs =>
    ((env.interpolateCharuco f m d).1 :: (stageBPrep env m d fs).1,
     (env.interpolateCharuco f m d).2 :: (stageBPrep env m d fs).2)

/-- The SolverAInput actually built before the Stage A call. -/
def aInputOf (flags : Nat) (r : ℚ) (frames : List Frame) : SolverAInput :=
  ⟨(prepareStageA frames).1, (prepareStageA frames).2.1, (prepareStageA frames).2.2,
   initialCameraMatrix flags r, flags⟩

/-- The SolverBInput actually built before the Stage B call: the
per-frame interpolation outputs together with the Stage A camera matrix
and distortion coefficients, which are not re-seeded. -/
def bInputOf (env : Env) (flags : Nat) (r : ℚ) (frames : List Frame) : SolverBInput :=
  ⟨(stageBPrep env (stageAOut env flags r frames).1 (stageAOut env flags r frames).2.1 frames).1,
   (stageBPrep env (stageAOut env flags r frames).1 (stageAOut env flags r frames).2.1 frames).2,
   (stageAOut env flags r frames).1, (stageAOut env flags r frames).2.1, flags⟩

/-- Result of the Stage B solver call (charuco.cpp lines 232-234). -/
def stageBOut (env : Env) (flags : Nat) (r : ℚ) (frames : List Frame) : Mat33 × List ℚ × ℚ :=
  env.solveCharuco (bInputOf env flags r frames).charucoCorners
    (bInputOf env flags r frames).charucoIds
    (stageAOut env flags r frames).1 (stageAOut env flags r frames).2.1 flags

/-- The calibration pipeline of main (charuco.cpp lines 175-245), from
the frozen observation store to the observable run outcome. The three
early exits mirror lines 175-178 (no captures), lines 226-229 (the
charuco corner list is shorter than 4) and lines 238-241 (the output
file cannot be written); the success path prints both errors. -/
def runPipeline (env : Env) (flags : Nat) (r : ℚ) (imageSize : Int × Int)
    (frames : List Frame) : RunResult :=
  if frames.length < 1 then
    ⟨ExitStatus.noDataError, none, none, none, false⟩
  else if (stageBPrep env (stageAOut env flags r frames).1
      (stageAOut env flags r frames).2.1 frames).1.length < 4 then
    ⟨ExitStatus.insufficientData, some (aInputOf flags r frames), none, none, false⟩
  else
    match saveCameraParams env.canOpen imageSize r flags (stageBOut env flags r frames).1
        (stageBOut env flags r frames).2.1 (stageBOut env flags r frames).2.2 with
    | none =>
      ⟨ExitStatus.persistenceError, some (aInputOf flags r frames),
       some (bInputOf env flags r frames), none, false⟩
    | some fields =>
      ⟨ExitStatus.success, some (aInputOf flags r frames),
       some (bInputOf env flags r frames), some fields, true⟩

/-- The calibration flags of main (charuco.cpp lines 103-104): only the
fix aspect ratio bit is set. -/
def calibrationFlags : Nat := 0 ||| CALIB_FIX_ASPECT

/-- The aspect ratio of main (charuco.cpp line 105): the double variable
is initialized from the integer division 16 / 9. -/
def aspectRatio : ℚ := ((16 / 9 : Int) : ℚ)

/-- Re-segmentation of a flat sequence by per-frame counts, the inverse
direction of the Stage A concatenation (the solver contract re-segments
the flat sequences by markerCounterPerFrame). -/
def segmentBy {α : Type} : List Nat → List α → List (List α)
  | [], _ => []
  | c :: cs, xs => xs.take c :: segmentBy cs (xs.drop c)

/-- Count of frames whose Stage B interpolation returned a non-empty
board-corner set, the quantity the threshold sentence of the spec talks
about. -/
def nonemptyInterpCount (env : Env) (m : Mat33) (d : List ℚ) (frames : List Frame) : Nat :=
  (((stageBPrep env m d frames).1).filter (fun l => l.isEmpty = false)).length

/-- A fixed image point for test fixtures. -/
def pt0 : Point := (0, 0)

/-- A degenerate marker corner quadruple for test fixtures. -/
def quad0 : MarkerQuad := [pt0, pt0, pt0, pt0]

/-- A test frame with n detected markers. -/
def testFrame (n : Nat) : Frame :=
  ⟨List.replicate n quad0, (List.range n).map Int.ofNat, 0⟩

/-- Test environment: the aruco solver returns its seeded matrix
unchanged, interpolation succeeds with one corner exactly on frames with
at least two markers, and the output destination is writable. -/
def testEnv1 : Env :=
  ⟨fun _ _ _ m _ => (m, [0], 0),
   fun f _ _ => if 2 ≤ f.corners.length then ([pt0], [0]) else ([], []),
   fun _ _ m d _ => (m, d, 0),
   true⟩

/-- Test environment whose aruco solver returns a camera matrix with
entry (0,0) equal to 5, and whose interpolation always succeeds. -/
def testEnv4 : Env :=
  ⟨fun _ _ _ _ _ => ({ Mat33.eye with m00 := 5 }, [0], 0),
   fun _ _ _ => ([pt0], [0]),
   fun _ _ m d _ => (m, d, 0),
   true⟩

/-- Test environment whose output destination cannot be opened. -/
def testEnv9 : Env :=
  ⟨fun _ _ _ m _ => (m, [0], 0),
   fun _ _ _ => ([pt0], [0]),
   fun _ _ m d _ => (m, d, 0),
   false⟩

/-- Three committed frames of which only the first two interpolate
non-empty under testEnv1. -/
def testFrames3 : List Frame := [testFrame 2, testFrame 2, testFrame 1]

/-- Four committed frames, all interpolating non-empty under testEnv1. -/
def testFrames4 : List Frame := [testFrame 2, testFrame 2, testFrame 2, testFrame 2]

/-- Five committed frames of which only the first two interpolate
non-empty under testEnv1. -/
def testFrames5 : List Frame :=
  [testFrame 2, testFrame 2, testFrame 1, testFrame 1, testFrame 1]

/-- Five committed frames of which the last interpolates empty under
testEnv1. -/
def testFrames5b : List Frame :=
  [testFrame 2, testFrame 2, testFrame 2, testFrame 2, testFrame 1]

theorem stageBPrep_corners (env : Env) (m : Mat33) (d : List ℚ) : ∀ frames : List Frame,
    (stageBPrep env m d frames).1 = frames.map (fun f => (env.interpolateCharuco f m d).1)
  | [] => rfl
  | f :: fs => by simp [stageBPrep, stageBPrep_corners env m d fs]

theorem stageBPrep_ids (env : Env) (m : Mat33) (d : List ℚ) : ∀ frames : List Frame,
    (stageBPrep env m d frames).2 = frames.map (fun f => (env.interpolateCharuco f m d).2)
  | [] => rfl
  | f :: fs => by simp [stageBPrep, stageBPrep_ids env m d fs]

theorem stageBPrep_length (env : Env) (m : Mat33) (d : List ℚ) (frames : List Frame) :
    (stageBPrep env m d frames).1.length = frames.length := by
  rw [stageBPrep_corners]; simp

theorem prepareStageA_counts : ∀ frames : List Frame,
    (prepareStageA frames).2.2 = frames.map (fun f => f.corners.length)
  | [] => rfl
  | f :: fs => by simp [prepareStageA, prepareStageA_counts fs]

theorem prepareStageA_corners : ∀ frames : List Frame,
    (prepareStageA frames).1 = (frames.map (fun f => f.corners)).flatten
  | [] => rfl
  | f :: fs => by simp [prepareStageA, prepareStageA_corners fs]

theorem prepareStageA_corners_length : ∀ frames : List Frame,
    (prepareStageA frames).1.length = ((prepareStageA frames).2.2).sum
  | [] => rfl
  | f :: fs => by
    simp [prepareStageA, prepareStageA_corners_length fs]

theorem prepareStageA_ids_length : ∀ frames : List Frame,
    (∀ f ∈ frames, f.ids.length = f.corners.length) →
    (prepareStageA frames).2.1.length = ((prepareStageA frames).2.2).sum
  | [], _ => rfl
  | f :: fs, h => by
    have hf : f.ids.length = f.corners.length := h f (by simp)
    have ih := prepareStageA_ids_length fs (fun g hg => h g (by simp [hg]))
    simp [prepareStageA, ih, List.length_take, hf]

theorem segmentBy_join {α : Type} : ∀ gs : List (List α),
    segmentBy (gs.map List.length) gs.flatten = gs
  | [] => rfl
  | g :: gs => by
    show (g ++ gs.flatten).take g.length :: segmentBy (gs.map List.length)
      ((g ++ gs.flatten).drop g.length) = g :: gs
    rw [List.take_left, List.drop_left, segmentBy_join gs]

theorem runPipeline_insufficient (env : Env) (flags : Nat) (r : ℚ) (sz : Int × Int)
    (frames : List Frame) (h1 : 1 ≤ frames.length) (h4 : frames.length < 4) :
    runPipeline env flags r sz frames =
      ⟨ExitStatus.insufficientData, some (aInputOf flags r frames), none, none, false⟩ := by
  unfold runPipeline
  rw [if_neg (by omega), if_pos (by rw [stageBPrep_length]; exact h4)]

theorem runPipeline_solved (env : Env) (flags : Nat) (r : ℚ) (sz : Int × Int)
    (frames : List Frame) (h4 : 4 ≤ frames.length) :
    runPipeline env flags r sz frames =
      match saveCameraParams env.canOpen sz r flags (stageBOut env flags r frames).1
          (stageBOut env flags r frames).2.1 (stageBOut env flags r frames).2.2 with
      | none =>
        ⟨ExitStatus.persistenceError, some (aInputOf flags r frames),
         some (bInputOf env flags r frames), none, false⟩
      | some fields =>
        ⟨ExitStatus.success, some (aInputOf flags r frames),
         some (bInputOf env flags r frames), some fields, true⟩ := by
  unfold runPipeline
  rw [if_neg (by omega), if_neg (by rw [stageBPrep_length]; omega)]

theorem runPipeline_stageBInput (env : Env) (flags : Nat) (r : ℚ) (sz : Int × Int)
    (frames : List Frame) (h4 : 4 ≤ frames.length) :
    (runPipeline env flags r sz frames).stageBInput = some (bInputOf env flags r frames) := by
  rw [runPipeline_solved env flags r sz frames h4]
  cases saveCameraParams env.canOpen sz r flags (stageBOut env flags r frames).1
      (stageBOut env flags r frames).2.1 (stageBOut env flags r frames).2.2 <;> rfl

theorem runPipeline_stageAInput (env : Env) (flags : Nat) (r : ℚ) (sz : Int × Int)
    (frames : List Frame) (h1 : 1 ≤ frames.length) :
    (runPipeline env flags r sz frames).stageAInput = some (aInputOf flags r frames) := by
  by_cases h4 : frames.length < 4
  · rw [runPipeline_insufficient env flags r sz frames h1 h4]
  · rw [runPipeline_solved env flags r sz frames (by omega)]
    cases saveCameraParams env.canOpen sz r flags (stageBOut env flags r frames).1
        (stageBOut env flags r frames).2.1 (stageBOut env flags r frames).2.2 <;> rfl

/-- Claim C1 counterexample: five committed frames of which only two
yield non-empty interpolation under testEnv1, so the number of frames
with a non-empty interpolated corner set is 2, below 4; yet the run does
not fail with the insufficient-data condition and the Stage B solver is
invoked, because the source only checks the length of allCharucoCorners,
which receives one entry per committed frame. -/
theorem stageB_threshold_ignores_interpolation_cex :
    nonemptyInterpCount testEnv1 (stageAOut testEnv1 calibrationFlags aspectRatio testFrames5).1
      (stageAOut testEnv1 calibrationFlags aspectRatio testFrames5).2.1 testFrames5 = 2 ∧
    (runPipeline testEnv1 calibrationFlags aspectRatio (1280, 720) testFrames5).outcome ≠
      ExitStatus.insufficientData ∧
    (runPipeline testEnv1 calibrationFlags aspectRatio (1280, 720) testFrames5).stageBInput.isSome
      = true := by
  decide

/-- Claim C1 (amended): the insufficient-data failure fires exactly when
the number of committed frames is below 4 (and at least one frame was
committed), regardless of the interpolation outcomes; in that case no
Stage B solver invocation occurs and no output file is produced. In
particular three committed frames of which only two interpolate
non-empty raise the failure, since three is below 4. -/
theorem stageB_insufficient_on_few_committed_frames (env : Env) (flags : Nat) (r : ℚ)
    (sz : Int × Int) (frames : List Frame) (h1 : 1 ≤ frames.length) (h4 : frames.length < 4) :
    (runPipeline env flags r sz frames).outcome = ExitStatus.insufficientData ∧
    (runPipeline env flags r sz frames).stageBInput = none ∧
    (runPipeline env flags r sz frames).fileFields = none := by
  rw [runPipeline_insufficient env flags r sz frames h1 h4]
  exact ⟨rfl, rfl, rfl⟩

/-- Claim C1 witness: the three-frame scenario of the spec, with two
frames interpolating non-empty, raises the insufficient-data exit. -/
theorem stageB_insufficient_on_few_committed_frames_witness :
    (runPipeline testEnv1 calibrationFlags aspectRatio (1280, 720) testFrames3).outcome =
      ExitStatus.insufficientData ∧
    (runPipeline testEnv1 calibrationFlags aspectRatio (1280, 720) testFrames3).stageBInput =
      none ∧
    (runPipeline testEnv1 calibrationFlags aspectRatio (1280, 720) testFrames3).fileFields =
      none :=
  stageB_insufficient_on_few_committed_frames testEnv1 calibrationFlags aspectRatio (1280, 720)
    testFrames3 (by decide) (by decide)

/-- Claim C2 counterexample: five committed frames of which the last
interpolates to zero board corners under testEnv1; the collections
passed into the Stage B solver contain the empty entry of that frame
(five entries for five frames), so empty frames are not excluded from
the solver invocation, and no failed-interpolation report exists in the
run outcome. -/
theorem stageB_passes_empty_interpolation_cex :
    (testEnv1.interpolateCharuco (testFrame 1)
      (stageAOut testEnv1 calibrationFlags aspectRatio testFrames5b).1
      (stageAOut testEnv1 calibrationFlags aspectRatio testFrames5b).2.1).1 = [] ∧
    (runPipeline testEnv1 calibrationFlags aspectRatio (1280, 720) testFrames5b).stageBInput =
      some ⟨[[pt0], [pt0], [pt0], [pt0], []], [[0], [0], [0], [0], []],
        initialCameraMatrix calibrationFlags aspectRatio, [0], calibrationFlags⟩ := by
  decide

/-- Claim C2 (amended): the Stage B preparation appends one entry per
committed frame unconditionally, in frame order, so a frame whose
interpolation yields zero board corners contributes an empty entry that
is included in the correspondence collections passed into the Stage B
solver invocation; the source emits no failed-interpolation report. -/
theorem stageB_one_entry_per_frame (env : Env) (flags : Nat) (r : ℚ) (sz : Int × Int)
    (frames : List Frame) (h4 : 4 ≤ frames.length) :
    (∀ (m : Mat33) (d : List ℚ),
      (stageBPrep env m d frames).1 = frames.map (fun f => (env.interpolateCharuco f m d).1) ∧
      (stageBPrep env m d frames).2 = frames.map (fun f => (env.interpolateCharuco f m d).2)) ∧
    (runPipeline env flags r sz frames).stageBInput = some (bInputOf env flags r frames) :=
  ⟨fun m d => ⟨stageBPrep_corners env m d frames, stageBPrep_ids env m d frames⟩,
   runPipeline_stageBInput env flags r sz frames h4⟩

/-- Claim C2 witness: concrete five-frame run in which the Stage B
solver input is exactly the bInputOf record, empty entry included. -/
theorem stageB_one_entry_per_frame_witness :
    (runPipeline testEnv1 calibrationFlags aspectRatio (1280, 720) testFrames5b).stageBInput =
      some (bInputOf testEnv1 calibrationFlags aspectRatio testFrames5b) :=
  (stageB_one_entry_per_frame testEnv1 calibrationFlags aspectRatio (1280, 720) testFrames5b
    (by decide)).2

/-- Claim C3: for a non-empty store, the pre-solver insufficiency check
of Stage B fires exactly when fewer than 4 frames were committed,
independently of every per-frame interpolation outcome, because the
checked collection always has one entry per committed frame. -/
theorem stageB_check_equals_committed_count (env : Env) (flags : Nat) (r : ℚ) (sz : Int × Int)
    (frames : List Frame) (h1 : 1 ≤ frames.length) :
    ((runPipeline env flags r sz frames).outcome = ExitStatus.insufficientData ↔
      frames.length < 4) ∧
    ∀ (m : Mat33) (d : List ℚ), (stageBPrep env m d frames).1.length = frames.length := by
  refine ⟨⟨?_, ?_⟩, fun m d => stageBPrep_length env m d frames⟩
  · intro hout
    by_contra h4
    rw [runPipeline_solved env flags r sz frames (by omega)] at hout
    revert hout
    cases saveCameraParams env.canOpen sz r flags (stageBOut env flags r frames).1
        (stageBOut env flags r frames).2.1 (stageBOut env flags r frames).2.2 <;> simp
  · intro h4
    rw [runPipeline_insufficient env flags r sz frames h1 h4]

/-- Claim C3 witness: three committed frames trip the check, and the
checked collection has exactly three entries. -/
theorem stageB_check_equals_committed_count_witness :
    (runPipeline testEnv1 calibrationFlags aspectRatio (1280, 720) testFrames3).outcome =
      ExitStatus.insufficientData ∧
    (stageBPrep testEnv1 (initialCameraMatrix calibrationFlags aspectRatio) [0]
      testFrames3).1.length = testFrames3.length :=
  ⟨(stageB_check_equals_committed_count testEnv1 calibrationFlags aspectRatio (1280, 720)
      testFrames3 (by decide)).1.mpr (by decide),
   (stageB_check_equals_committed_count testEnv1 calibrationFlags aspectRatio (1280, 720)
      testFrames3 (by decide)).2 (initialCameraMatrix calibrationFlags aspectRatio) [0]⟩

/-- Claim C4 counterexample: with the fix-aspect-ratio flag set and
target value aspectRatio, a solver whose Stage A output matrix has entry
(0,0) equal to 5 makes the camera matrix passed into the Stage B solver
carry entry (0,0) equal to 5, not the target value: the matrix is not
re-seeded between the stages. -/
theorem stageB_matrix_not_reseeded_cex :
    calibrationFlags &&& CALIB_FIX_ASPECT ≠ 0 ∧
    ((runPipeline testEnv4 calibrationFlags aspectRatio (1280, 720) testFrames4).stageBInput.map
      (fun b => b.cameraMatrix.m00)) = some 5 ∧
    (5 : ℚ) ≠ aspectRatio := by
  decide

/-- Claim C4 (amended): when the fix-aspect-ratio flag is set with
target value r, the camera matrix passed into the Stage A solver
invocation is the identity-like seed with entry (0,0) equal to r; the
camera matrix passed into the Stage B solver invocation is the Stage A
solver output, which is not re-seeded and therefore need not have entry
(0,0) equal to r. -/
theorem stageA_seeded_matrix_policy (env : Env) (flags : Nat) (r : ℚ) (sz : Int × Int)
    (frames : List Frame) (hflag : flags &&& CALIB_FIX_ASPECT ≠ 0) (h1 : 1 ≤ frames.length) :
    (runPipeline env flags r sz frames).stageAInput =
      some ⟨(prepareStageA frames).1, (prepareStageA frames).2.1, (prepareStageA frames).2.2,
            { Mat33.eye with m00 := r }, flags⟩ ∧
    ({ Mat33.eye with m00 := r } : Mat33).m00 = r ∧
    (4 ≤ frames.length →
      ((runPipeline env flags r sz frames).stageBInput.map (fun b => b.cameraMatrix)) =
        some (stageAOut env flags r frames).1) := by
  refine ⟨?_, rfl, fun h4 => ?_⟩
  · rw [runPipeline_stageAInput env flags r sz frames h1]
    unfold aInputOf initialCameraMatrix
    rw [if_pos hflag]
  · rw [runPipeline_stageBInput env flags r sz frames h4]
    rfl

/-- Claim C4 witness: in a concrete four-frame run the Stage A solver
receives the identity matrix seeded with the aspect ratio at (0,0). -/
theorem stageA_seeded_matrix_policy_witness :
    (runPipeline testEnv1 calibrationFlags aspectRatio (1280, 720) testFrames4).stageAInput =
      some ⟨(prepareStageA testFrames4).1, (prepareStageA testFrames4).2.1,
            (prepareStageA testFrames4).2.2, { Mat33.eye with m00 := aspectRatio },
            calibrationFlags⟩ :=
  (stageA_seeded_matrix_policy testEnv1 calibrationFlags aspectRatio (1280, 720) testFrames4
    (by decide) (by decide)).1

/-- Claim C5: when every committed frame satisfies the observation
invariant (as many ids as corner quadruples), the Stage A marker counter
sequence lists, in frame order, the marker count of each frame, and its
sum equals the length of the flat concatenated corner sequence and the
length of the flat concatenated id sequence. -/
theorem stageA_counts_order_and_sum (frames : List Frame)
    (h : ∀ f ∈ frames, f.ids.length = f.corners.length) :
    (prepareStageA frames).2.2 = frames.map (fun f => f.corners.length) ∧
    ((prepareStageA frames).2.2).sum = (prepareStageA frames).1.length ∧
    ((prepareStageA frames).2.2).sum = (prepareStageA frames).2.1.length :=
  ⟨prepareStageA_counts frames, (prepareStageA_corners_length frames).symm,
   (prepareStageA_ids_length frames h).symm⟩

/-- Claim C5 witness: the invariant holds of the concrete three-frame
store and the counter sequence sums to both flat lengths. -/
theorem stageA_counts_order_and_sum_witness :
    (prepareStageA testFrames3).2.2 = testFrames3.map (fun f => f.corners.length) ∧
    ((prepareStageA testFrames3).2.2).sum = (prepareStageA testFrames3).1.length ∧
    ((prepareStageA testFrames3).2.2).sum = (prepareStageA testFrames3).2.1.length :=
  stageA_counts_order_and_sum testFrames3 (by decide)

/-- Claim C6: re-segmenting the Stage A flat corner sequence by the
recorded per-frame counts reproduces exactly the original per-frame
corner groups in frame order, and in general flattening any sequence of
groups and re-segmenting by the group lengths is the identity. -/
theorem concat_resegment_roundtrip (frames : List Frame) :
    segmentBy (prepareStageA frames).2.2 (prepareStageA frames).1 =
      frames.map (fun f => f.corners) ∧
    ∀ (gs : List (List Int)), segmentBy (gs.map List.length) gs.flatten = gs := by
  constructor
  · have hmap : frames.map (fun f => f.corners.length)
        = (frames.map (fun f => f.corners)).map List.length := by simp
    rw [prepareStageA_counts, prepareStageA_corners, hmap, segmentBy_join]
  · exact fun gs => segmentBy_join gs

/-- Claim C7: with zero committed frames the pipeline exits with the
no-data condition before Stage A: neither solver is invoked and no
output file is produced. -/
theorem zero_frames_noDataError (env : Env) (flags : Nat) (r : ℚ) (sz : Int × Int) :
    runPipeline env flags r sz [] = ⟨ExitStatus.noDataError, none, none, none, false⟩ :=
  rfl

/-- Claim C8 counterexample: at a concrete successful write with nonzero
flags, the serialized field list differs from the field list the spec
describes, because the human-readable flags string is formatted into a
local buffer but never written to the file. -/
theorem saveCameraParams_flags_string_cex :
    calibrationFlags ≠ 0 ∧
    saveCameraParams true (1280, 720) aspectRatio calibrationFlags Mat33.eye [0] 0 ≠
      saveCameraParamsSpec true (1280, 720) aspectRatio calibrationFlags Mat33.eye [0] 0 := by
  decide

/-- Claim C8 (amended): a successful write serializes exactly, in this
order, the calibration timestamp, the image width, the image height, the
aspect ratio (present exactly when the fix-aspect-ratio flag is set),
the numeric flags value, the camera matrix, the distortion coefficients
and the average reprojection error; the human-readable flags string is
never among the serialized fields. -/
theorem saveCameraParams_field_order (sz : Int × Int) (r : ℚ) (flags : Nat) (m : Mat33)
    (d : List ℚ) (e : ℚ) :
    saveCameraParams true sz r flags m d e =
      some ([OutField.calibrationTime, OutField.imageWidth sz.1, OutField.imageHeight sz.2]
        ++ (if flags &&& CALIB_FIX_ASPECT ≠ 0 then [OutField.aspectRatioField r] else [])
        ++ [OutField.flagsField flags, OutField.cameraMatrixField m,
            OutField.distCoeffsField d, OutField.avgReprojErr e]) ∧
    ∀ (s : String),
      OutField.flagsString s ∉ (saveCameraParams true sz r flags m d e).getD [] := by
  refine ⟨rfl, fun s => ?_⟩
  by_cases hf : flags &&& CALIB_FIX_ASPECT ≠ 0 <;> simp [saveCameraParams, hf]

/-- Claim C9: when the output destination cannot be opened the writer
returns failure with no field serialized, and the pipeline then exits
with the persistence-error condition, produces no output file and never
prints the reprojection errors, losing the calibration result. -/
theorem unwritable_output_loses_result (env : Env) (flags : Nat) (r : ℚ) (sz : Int × Int)
    (frames : List Frame) (hopen : env.canOpen = false) (h4 : 4 ≤ frames.length) :
    (∀ (sz2 : Int × Int) (r2 : ℚ) (fl : Nat) (m : Mat33) (d : List ℚ) (e : ℚ),
        saveCameraParams false sz2 r2 fl m d e = none) ∧
    (runPipeline env flags r sz frames).outcome = ExitStatus.persistenceError ∧
    (runPipeline env flags r sz frames).fileFields = none ∧
    (runPipeline env flags r sz frames).printedErrors = false := by
  have hsave : saveCameraParams env.canOpen sz r flags (stageBOut env flags r frames).1
      (stageBOut env flags r frames).2.1 (stageBOut env flags r frames).2.2 = none := by
    rw [hopen]; rfl
  rw [runPipeline_solved env flags r sz frames h4, hsave]
  exact ⟨fun _ _ _ _ _ _ => rfl, rfl, rfl, rfl⟩

/-- Claim C9 witness: a concrete four-frame run against an unwritable
destination exits with the persistence error and writes nothing. -/
theorem unwritable_output_loses_result_witness :
    testEnv9.canOpen = false ∧
    (runPipeline testEnv9 calibrationFlags aspectRatio (1280, 720) testFrames4).outcome =
      ExitStatus.persistenceError ∧
    (runPipeline testEnv9 calibrationFlags aspectRatio (1280, 720) testFrames4).fileFields =
      none :=
  ⟨rfl,
   (unwritable_output_loses_result testEnv9 calibrationFlags aspectRatio (1280, 720) testFrames4
     rfl (by decide)).2.1,
   (unwritable_output_loses_result testEnv9 calibrationFlags aspectRatio (1280, 720) testFrames4
     rfl (by decide)).2.2.1⟩

/-- Claim C10: the fixed aspect ratio of the run comes from the integer
division 16 / 9 and therefore equals 1, not the rational 16/9; it is the
value seeded into entry (0,0) of the camera matrix and the value carried
by the aspect-ratio field of the output file. -/
theorem aspect_from_integer_division :
    aspectRatio = 1 ∧
    aspectRatio ≠ (16 : ℚ) / 9 ∧
    (initialCameraMatrix calibrationFlags aspectRatio).m00 = 1 ∧
    OutField.aspectRatioField 1 ∈
      (saveCameraParams true (1280, 720) aspectRatio calibrationFlags Mat33.eye [0] 0).getD
        [] := by
  refine ⟨by decide, ?_, by decide, by decide⟩
  rw [show aspectRatio = 1 from by decide]
  norm_num
